import Mathlib

/-!
Shallow embedding of the `XeroClientHelper` class (src, TypeScript) and proofs
about its token freshness policy, cache adapter, session manager
(`ensureAuthenticated`) and facade operations (`getTokenFromCode`,
`getTenants`, `getActiveTenantId`).

Modelling conventions:
* JavaScript's `Number(x) || 0` coercion of the `expires_at` field is modelled
  by `JSNum` (a finite integer or `NaN`) together with `coerceExpiresAt`.
* `Date.now()` is non-negative, so the current clock `Math.floor(Date.now() / 1000)`
  is modelled as a natural number `nowSeconds : Nat`, cast to `Int` where the
  source performs integer arithmetic.
* Nullable JavaScript values are `Option`s; JS truthiness of a string is
  "present and non-empty".
* The external collaborators (the wrapped Xero SDK and the Redis store) are
  modelled by oracle values describing the outcome of each external call, and
  every operation returns, besides its result and the updated state, the list
  of external side effects it performed, in order.
-/

namespace XeroHelper

/-- A JavaScript numeric value as produced by `Number(x)`: either a finite
integer (the only values relevant to `expires_at`) or `NaN` (e.g. from a
non-numeric string). -/
inductive JSNum where
  | num (n : Int)
  | nan
deriving DecidableEq, Repr

/-- The token record (`tokenSet`) handled by the helper: an untyped bag in the
source, of which only `refresh_token` and `expires_at` are ever inspected;
`access_token` stands for the opaque remainder. Any field may be absent. -/
structure TokenSet where
  access_token : Option String := none
  refresh_token : Option String := none
  expires_at : Option JSNum := none
deriving DecidableEq, Repr

/-- `Number(tokenSet?.expires_at) || 0`: an absent record, an absent field and
a `NaN` coercion all yield `0`; a finite number is kept (note `0 || 0 = 0`, so
keeping `0` is also faithful). -/
def coerceExpiresAt : Option TokenSet → Int
  | none => 0
  | some ts =>
    match ts.expires_at with
    | some (JSNum.num n) => n
    | some JSNum.nan => 0
    | none => 0

/-- `isExpiredOrNearExpiry` from the source:
`const expiresAt = Number(tokenSet?.expires_at) || 0;`
`return !expiresAt || expiresAt - nowSeconds < 60;`. -/
def isExpiredOrNearExpiry (tokenSet : Option TokenSet) (nowSeconds : Nat) : Bool :=
  let expiresAt := coerceExpiresAt tokenSet
  expiresAt == 0 || decide (expiresAt - (nowSeconds : Int) < 60)

theorem isExpiredOrNearExpiry_eq_true_iff (t : Option TokenSet) (now : Nat) :
    isExpiredOrNearExpiry t now = true ↔
      coerceExpiresAt t = 0 ∨ coerceExpiresAt t - (now : Int) < 60 := by
  simp [isExpiredOrNearExpiry]

theorem isExpiredOrNearExpiry_eq_false_iff (t : Option TokenSet) (now : Nat) :
    isExpiredOrNearExpiry t now = false ↔
      coerceExpiresAt t ≠ 0 ∧ 60 ≤ coerceExpiresAt t - (now : Int) := by
  simp [isExpiredOrNearExpiry, not_lt]

/-- What the Redis store holds at the fixed key `xero:oauth:tokenSet`:
nothing, a payload that parses to a token record, or a malformed payload
(on which `JSON.parse` throws). -/
inductive StoredVal where
  | valid (ts : TokenSet)
  | malformed
deriving DecidableEq, Repr

/-- The Redis store as seen through the fixed key, together with a fault flag
making `redis.set` throw (store outage). -/
structure CacheState where
  stored : Option StoredVal := none
  writeFails : Bool := false
deriving DecidableEq, Repr

/-- `saveTokenSet`: `JSON.stringify(tokenSet || {})` then `redis.set`; a store
failure is caught and logged, leaving the store unchanged and the caller
unaffected. -/
def saveTokenSet (tokenSet : Option TokenSet) (cache : CacheState) : CacheState :=
  if cache.writeFails then cache
  else { cache with stored := some (StoredVal.valid (tokenSet.getD {})) }

/-- `loadTokenSet`: `redis.get` of the fixed key; a missing key returns `null`
and a `JSON.parse` failure is caught and also returns `null`. -/
def loadTokenSet (cache : CacheState) : Option TokenSet :=
  match cache.stored with
  | none => none
  | some StoredVal.malformed => none
  | some (StoredVal.valid ts) => some ts

/-- A tenant descriptor as returned by the wrapped SDK: an untyped bag of
which only `tenantId` is ever inspected (and may be absent or empty). -/
structure Tenant where
  tenantId : Option String := none
deriving DecidableEq, Repr

/-- The configuration read from the process environment at construction. -/
structure XeroEnv where
  clientId : Option String := none
  clientSecret : Option String := none
  redirectUris : List String := []
deriving DecidableEq, Repr

/-- The mutable state of one helper instance: the wrapped client's in-memory
`tokenSet` and `tenants` fields, and the Redis store. -/
structure SessionState where
  clientTokenSet : Option TokenSet := none
  clientTenants : Option (List Tenant) := none
  cache : CacheState := {}
deriving DecidableEq, Repr

/-- An external side effect performed by an operation, in the order issued:
a Redis read or write, a call to `refreshWithRefreshToken` (recording its
arguments), a call to `updateTenants`, or the OAuth code exchange
(`apiCallback`, recording the callback URL). -/
inductive Effect where
  | cacheRead
  | cacheWrite (tokenSet : Option TokenSet)
  | refreshCall (clientId clientSecret : Option String) (refreshToken : String)
  | tenantsCall
  | exchangeCall (callbackUrl : String)
deriving DecidableEq, Repr

/-- The distinct failures the helper can raise, identified by their message. -/
inductive XeroError where
  /-- `Authorization code is required` -/
  | codeRequired
  /-- `XERO_REDIRECT_URIS not configured` -/
  | redirectNotConfigured
  /-- `Failed to exchange authorization code: ...` -/
  | exchangeFailed
  /-- `Failed to retrieve tenants: ...` -/
  | tenantsFailed
  /-- `Xero authentication required. Please connect via OAuth flow.` -/
  | authRequired
  /-- `No connected Xero tenant found` -/
  | noTenant
deriving DecidableEq, Repr

/-- Outcome of a `refreshWithRefreshToken` call on the wrapped SDK: it throws,
or it returns a value (possibly falsy, modelled by `none`). -/
inductive RefreshOutcome where
  | throws
  | returns (tokenSet : Option TokenSet)
deriving DecidableEq, Repr

/-- Outcome of an `updateTenants` call on the wrapped SDK: it throws, or it
succeeds, leaving the client's `tenants` field set to the given value
(possibly still unset, modelled by `none`). -/
inductive TenantsOutcome where
  | throws
  | sets (tenants : Option (List Tenant))
deriving DecidableEq, Repr

/-- Outcome of an `apiCallback` code exchange on the wrapped SDK. -/
inductive ExchangeOutcome where
  | throws
  | returns (tokenSet : TokenSet)
deriving DecidableEq, Repr

/-- `setClientTokenSet`: a falsy argument is ignored, otherwise the client's
`tokenSet` field is replaced. -/
def setClientTokenSet (tokenSet : Option TokenSet) (s : SessionState) : SessionState :=
  match tokenSet with
  | none => s
  | some ts => { s with clientTokenSet := some ts }

/-- Result of `ensureAuthenticated`: `ok = false` means it threw the
`authRequired` error. -/
structure EAResult where
  ok : Bool
  state : SessionState
  effects : List Effect
deriving DecidableEq, Repr

/-- `ensureAuthenticated` from the source, step by step:
1. if the client already holds a token set that is not expired or near
   expiry, return with no I/O;
2. otherwise load the stored record; if present apply it to the client, and
   if it is not expired or near expiry, return;
3. otherwise, if the *stored* record carries a truthy `refresh_token`, call
   `refreshWithRefreshToken(clientId, clientSecret, stored.refresh_token)`;
   a truthy result is applied to the client, saved, and the call returns
   (a thrown refresh error is caught and logged);
4. otherwise throw `authRequired`. -/
def ensureAuthenticated (env : XeroEnv) (refreshOrc : RefreshOutcome)
    (s : SessionState) (now : Nat) : EAResult :=
  if s.clientTokenSet.isSome && !(isExpiredOrNearExpiry s.clientTokenSet now) then
    ⟨true, s, []⟩
  else
    let stored := loadTokenSet s.cache
    let s1 := setClientTokenSet stored s
    if stored.isSome && !(isExpiredOrNearExpiry stored now) then
      ⟨true, s1, [Effect.cacheRead]⟩
    else
      match stored with
      | none => ⟨false, s1, [Effect.cacheRead]⟩
      | some st =>
        match st.refresh_token with
        | none => ⟨false, s1, [Effect.cacheRead]⟩
        | some rtok =>
          if rtok = "" then ⟨false, s1, [Effect.cacheRead]⟩
          else
            match refreshOrc with
            | RefreshOutcome.throws =>
              ⟨false, s1,
                [Effect.cacheRead, Effect.refreshCall env.clientId env.clientSecret rtok]⟩
            | RefreshOutcome.returns none =>
              ⟨false, s1,
                [Effect.cacheRead, Effect.refreshCall env.clientId env.clientSecret rtok]⟩
            | RefreshOutcome.returns (some refreshed) =>
              let s2 := setClientTokenSet (some refreshed) s1
              let s3 := { s2 with cache := saveTokenSet (some refreshed) s2.cache }
              ⟨true, s3,
                [Effect.cacheRead, Effect.refreshCall env.clientId env.clientSecret rtok,
                  Effect.cacheWrite (some refreshed)]⟩

/-- `getTenants` from the source: `ensureAuthenticated`, then
`if (!x.tenants || x.tenants.length === 0) await x.updateTenants();`
`return x.tenants || [];` with the inner block's errors wrapped as
`Failed to retrieve tenants`. -/
def getTenants (env : XeroEnv) (refreshOrc : RefreshOutcome)
    (tenantsOrc : TenantsOutcome) (s : SessionState) (now : Nat) :
    Except XeroError (List Tenant) × SessionState × List Effect :=
  let ea := ensureAuthenticated env refreshOrc s now
  if ea.ok then
    let s1 := ea.state
    if (s1.clientTenants.getD []).isEmpty then
      match tenantsOrc with
      | TenantsOutcome.throws =>
        ⟨Except.error XeroError.tenantsFailed, s1, ea.effects ++ [Effect.tenantsCall]⟩
      | TenantsOutcome.sets newTenants =>
        let s2 := { s1 with clientTenants := newTenants }
        ⟨Except.ok (newTenants.getD []), s2, ea.effects ++ [Effect.tenantsCall]⟩
    else
      ⟨Except.ok (s1.clientTenants.getD []), s1, ea.effects⟩
  else
    ⟨Except.error XeroError.authRequired, ea.state, ea.effects⟩

/-- The tenant selection line of `getActiveTenantId`:
`const tenantId = tenants?.[1]?.tenantId; if (!tenantId) throw ...; return tenantId;`. -/
def selectActiveTenantId (tenants : List Tenant) : Except XeroError String :=
  match tenants[1]? with
  | none => Except.error XeroError.noTenant
  | some t =>
    match t.tenantId with
    | none => Except.error XeroError.noTenant
    | some tid => if tid = "" then Except.error XeroError.noTenant else Except.ok tid

/-- `getActiveTenantId` from the source: `ensureAuthenticated`, `getTenants`,
then select `tenants?.[1]?.tenantId`, throwing `noTenant` when falsy. -/
def getActiveTenantId (env : XeroEnv) (refreshOrc : RefreshOutcome)
    (tenantsOrc : TenantsOutcome) (s : SessionState) (now : Nat) :
    Except XeroError String × SessionState × List Effect :=
  let ea := ensureAuthenticated env refreshOrc s now
  if ea.ok then
    let gt := getTenants env refreshOrc tenantsOrc ea.state now
    match gt.1 with
    | Except.error e => ⟨Except.error e, gt.2.1, ea.effects ++ gt.2.2⟩
    | Except.ok tenants => ⟨selectActiveTenantId tenants, gt.2.1, ea.effects ++ gt.2.2⟩
  else
    ⟨Except.error XeroError.authRequired, ea.state, ea.effects⟩

/-- JavaScript's `String.prototype.trim`: strip leading and trailing
whitespace. Written over the character list so that it is kernel-executable
(Lean's own `String.trim` does not reduce in the kernel). -/
def jsTrim (s : String) : String :=
  String.mk (((s.data.dropWhile Char.isWhitespace).reverse.dropWhile
    Char.isWhitespace).reverse)

/-- `getTokenFromCode` from the source: reject a blank/absent code, require a
truthy first redirect URI, then `apiCallback`, `setClientTokenSet`,
`updateTenants`, `saveTokenSet`, returning the exchanged token set; errors
inside the `try` are wrapped as `Failed to exchange authorization code`. -/
def getTokenFromCode (env : XeroEnv) (code : Option String)
    (exchangeOrc : ExchangeOutcome) (tenantsOrc : TenantsOutcome)
    (s : SessionState) :
    Except XeroError TokenSet × SessionState × List Effect :=
  if jsTrim (code.getD "") = "" then
    ⟨Except.error XeroError.codeRequired, s, []⟩
  else
    match env.redirectUris.head? with
    | none => ⟨Except.error XeroError.redirectNotConfigured, s, []⟩
    | some uri =>
      if uri = "" then ⟨Except.error XeroError.redirectNotConfigured, s, []⟩
      else
        let callbackUrl := uri ++ "?code=" ++ (code.getD "")
        match exchangeOrc with
        | ExchangeOutcome.throws =>
          ⟨Except.error XeroError.exchangeFailed, s, [Effect.exchangeCall callbackUrl]⟩
        | ExchangeOutcome.returns ts =>
          let s1 := setClientTokenSet (some ts) s
          match tenantsOrc with
          | TenantsOutcome.throws =>
            ⟨Except.error XeroError.exchangeFailed, s1,
              [Effect.exchangeCall callbackUrl, Effect.tenantsCall]⟩
          | TenantsOutcome.sets newTenants =>
            let s2 := { s1 with clientTenants := newTenants }
            let s3 := { s2 with cache := saveTokenSet (some ts) s2.cache }
            ⟨Except.ok ts, s3,
              [Effect.exchangeCall callbackUrl, Effect.tenantsCall,
                Effect.cacheWrite (some ts)]⟩

/-! ## Freshness policy claims -/

/-- C3: a token record is judged fresh (the freshness check
`isExpiredOrNearExpiry` returns `false`) if and only if its coerced
`expires_at` is positive and `expires_at - now >= 60` (the margin); a record
with absent, zero or negative `expires_at` coerces to a non-positive value
and so is never judged fresh. The clock is a natural number since
`Date.now()` is non-negative. -/
theorem C3_fresh_iff_positive_and_margin (t : Option TokenSet) (now : Nat) :
    isExpiredOrNearExpiry t now = false ↔
      0 < coerceExpiresAt t ∧ 60 ≤ coerceExpiresAt t - (now : Int) := by
  rw [isExpiredOrNearExpiry_eq_false_iff]
  omega

/-- C2 (counterexample): at the boundary `expires_at = now + 60` the claim
says the freshness check returns false, but the source computes
`expiresAt - nowSeconds < 60`, which is false at exactly 60, so the record
is judged fresh: with `now = 100` and `expires_at = 160 = now + 60` the
check `isExpiredOrNearExpiry` returns `false` (fresh). -/
theorem C2_counterexample :
    coerceExpiresAt (some { expires_at := some (JSNum.num 160) }) = (100 : Int) + 60
    ∧ isExpiredOrNearExpiry (some { expires_at := some (JSNum.num 160) }) 100 = false := by
  constructor
  · rfl
  · rfl

/-- C2 (amended): the freshness check returns false whenever the coerced
`expires_at` is strictly below `now + 60` (in particular when it is missing,
zero or negative, which coerce to a non-positive value), and returns true
whenever `expires_at >= now + 60`. -/
theorem C2_freshness_thresholds (t : Option TokenSet) (now : Nat) :
    (coerceExpiresAt t < (now : Int) + 60 → isExpiredOrNearExpiry t now = true)
    ∧ ((now : Int) + 60 ≤ coerceExpiresAt t → isExpiredOrNearExpiry t now = false)
    ∧ (coerceExpiresAt t ≤ 0 → isExpiredOrNearExpiry t now = true) := by
  refine ⟨fun h => ?_, fun h => ?_, fun h => ?_⟩
  · rw [isExpiredOrNearExpiry_eq_true_iff]; omega
  · rw [isExpiredOrNearExpiry_eq_false_iff]; omega
  · rw [isExpiredOrNearExpiry_eq_true_iff]; omega

/-- C2 (witness): the amended thresholds evaluated at concrete inputs:
`expires_at = 30` with `now = 100` is not fresh, `expires_at = 160` with
`now = 100` is fresh, and `expires_at = -5` with `now = 100` is not fresh. -/
theorem C2_freshness_thresholds_witness :
    isExpiredOrNearExpiry (some { expires_at := some (JSNum.num 30) }) 100 = true
    ∧ isExpiredOrNearExpiry (some { expires_at := some (JSNum.num 160) }) 100 = false
    ∧ isExpiredOrNearExpiry (some { expires_at := some (JSNum.num (-5)) }) 100 = true :=
  ⟨(C2_freshness_thresholds (some { expires_at := some (JSNum.num 30) }) 100).1 (by decide),
   (C2_freshness_thresholds (some { expires_at := some (JSNum.num 160) }) 100).2.1 (by decide),
   (C2_freshness_thresholds (some { expires_at := some (JSNum.num (-5)) }) 100).2.2 (by decide)⟩

/-- C10: the freshness check is a total function (so it cannot throw) and a
null record, a record with an absent `expires_at`, and a record whose
`expires_at` coerces to `NaN` are all coerced to `0` and reported as
expired/not fresh, for every clock value and independently of the other
fields. -/
theorem C10_degenerate_inputs_expired (now : Nat) (a r : Option String) :
    coerceExpiresAt none = 0
    ∧ isExpiredOrNearExpiry none now = true
    ∧ coerceExpiresAt (some { access_token := a, refresh_token := r, expires_at := none }) = 0
    ∧ isExpiredOrNearExpiry (some { access_token := a, refresh_token := r, expires_at := none }) now = true
    ∧ coerceExpiresAt (some { access_token := a, refresh_token := r, expires_at := some JSNum.nan }) = 0
    ∧ isExpiredOrNearExpiry (some { access_token := a, refresh_token := r, expires_at := some JSNum.nan }) now = true := by
  refine ⟨rfl, ?_, rfl, ?_, rfl, ?_⟩ <;> simp [isExpiredOrNearExpiry, coerceExpiresAt]

/-! ## Session manager claims -/

/-- Shared helper: when the in-memory token set is present and not expired or
near expiry, `ensureAuthenticated` returns at step 1 with no effects and an
unchanged state. -/
theorem ensureAuthenticated_of_fresh (env : XeroEnv) (refreshOrc : RefreshOutcome)
    (s : SessionState) (now : Nat) (ts : TokenSet)
    (hmem : s.clientTokenSet = some ts)
    (hfresh : isExpiredOrNearExpiry (some ts) now = false) :
    ensureAuthenticated env refreshOrc s now = ⟨true, s, []⟩ := by
  simp [ensureAuthenticated, hmem, hfresh]

/-- C8: when the in-memory client already holds a fresh token record,
`ensureAuthenticated` succeeds with an empty effect list (no cache read, no
cache write, no refresh call) and an unchanged state, so repeated calls in
that state are idempotent. -/
theorem C8_fresh_in_memory_no_io (env : XeroEnv) (refreshOrc : RefreshOutcome)
    (s : SessionState) (now : Nat) (ts : TokenSet)
    (hmem : s.clientTokenSet = some ts)
    (hfresh : isExpiredOrNearExpiry (some ts) now = false) :
    ensureAuthenticated env refreshOrc s now = ⟨true, s, []⟩ :=
  ensureAuthenticated_of_fresh env refreshOrc s now ts hmem hfresh

/-- C8 (witness): a concrete fresh in-memory token at `now = 100`. -/
theorem C8_fresh_in_memory_no_io_witness :
    ensureAuthenticated {} RefreshOutcome.throws
        { clientTokenSet := some { expires_at := some (JSNum.num 10000) } } 100
      = ⟨true, { clientTokenSet := some { expires_at := some (JSNum.num 10000) } }, []⟩ :=
  C8_fresh_in_memory_no_io {} RefreshOutcome.throws
    { clientTokenSet := some { expires_at := some (JSNum.num 10000) } } 100
    { expires_at := some (JSNum.num 10000) } rfl (by decide)

/-- C1 (counterexample): the refresh branch reads the refresh token only from
the cache-loaded record (`stored?.refresh_token`), never from the in-memory
one. Here the in-memory record is stale (`expires_at = 50`, `now = 100`) and
carries the refresh token `"memtok"`, the cache is empty, and the refresh
oracle would succeed — yet `ensureAuthenticated` performs only the cache
read, never calls refresh, and throws `authRequired`, contradicting the
claim that the refresh operation is called and the operation returns without
error. -/
theorem C1_counterexample :
    ensureAuthenticated
        { clientId := some "cid", clientSecret := some "sec" }
        (RefreshOutcome.returns (some { expires_at := some (JSNum.num 10000) }))
        { clientTokenSet := some { refresh_token := some "memtok", expires_at := some (JSNum.num 50) } }
        100
      = ⟨false,
          { clientTokenSet := some { refresh_token := some "memtok", expires_at := some (JSNum.num 50) } },
          [Effect.cacheRead]⟩ := rfl

/-- C1 (amended): when the in-memory token is absent or not fresh and the
cache-loaded record is not fresh but carries a non-empty refresh token, the
wrapped client's refresh operation is called with the configured client
id/secret and that record's refresh token; on a successful refresh the
refreshed record is applied to the client, saved to the (healthy) cache, and
`ensureAuthenticated` returns without error. -/
theorem C1_refresh_path (env : XeroEnv) (s : SessionState) (now : Nat)
    (st refreshed : TokenSet) (rtok : String)
    (hmem : isExpiredOrNearExpiry s.clientTokenSet now = true)
    (hstored : s.cache.stored = some (StoredVal.valid st))
    (hstale : isExpiredOrNearExpiry (some st) now = true)
    (hrt : st.refresh_token = some rtok)
    (hne : rtok ≠ "")
    (hw : s.cache.writeFails = false) :
    ensureAuthenticated env (RefreshOutcome.returns (some refreshed)) s now
      = ⟨true,
          { clientTokenSet := some refreshed,
            clientTenants := s.clientTenants,
            cache := { stored := some (StoredVal.valid refreshed), writeFails := false } },
          [Effect.cacheRead, Effect.refreshCall env.clientId env.clientSecret rtok,
            Effect.cacheWrite (some refreshed)]⟩ := by
  simp [ensureAuthenticated, hmem, loadTokenSet, hstored, setClientTokenSet, hstale, hrt,
    hne, saveTokenSet, hw]

/-- C1 (witness): a concrete run of the amended refresh path: empty in-memory
state, a stale stored record with refresh token `"rtok-1"`, a healthy store
and a succeeding refresh oracle. -/
theorem C1_refresh_path_witness :
    ensureAuthenticated
        { clientId := some "cid", clientSecret := some "sec" }
        (RefreshOutcome.returns (some { expires_at := some (JSNum.num 10000) }))
        { cache := { stored := some (StoredVal.valid
            { refresh_token := some "rtok-1", expires_at := some (JSNum.num 50) }) } }
        100
      = ⟨true,
          { clientTokenSet := some { expires_at := some (JSNum.num 10000) },
            clientTenants := none,
            cache := { stored := some (StoredVal.valid { expires_at := some (JSNum.num 10000) }),
                       writeFails := false } },
          [Effect.cacheRead, Effect.refreshCall (some "cid") (some "sec") "rtok-1",
            Effect.cacheWrite (some { expires_at := some (JSNum.num 10000) })]⟩ :=
  C1_refresh_path { clientId := some "cid", clientSecret := some "sec" }
    { cache := { stored := some (StoredVal.valid
        { refresh_token := some "rtok-1", expires_at := some (JSNum.num 50) }) } }
    100 { refresh_token := some "rtok-1", expires_at := some (JSNum.num 50) }
    { expires_at := some (JSNum.num 10000) } "rtok-1"
    (by decide) rfl (by decide) rfl (by decide) rfl

/-- C6 (counterexample): the auth-required outcome also depends on the
in-memory token, which the claim leaves unconstrained. With a cached record
`expires_at = 900` (in the past of `now = 1000`) and no refresh token, but a
fresh in-memory token and a non-empty in-memory tenant list, `getTenants`
succeeds instead of failing with the authentication-required condition. -/
theorem C6_counterexample :
    getTenants {} RefreshOutcome.throws TenantsOutcome.throws
        { clientTokenSet := some { expires_at := some (JSNum.num 2000) },
          clientTenants := some [{ tenantId := some "ten-a" }],
          cache := { stored := some (StoredVal.valid { expires_at := some (JSNum.num 900) }) } }
        1000
      = ⟨Except.ok [{ tenantId := some "ten-a" }],
          { clientTokenSet := some { expires_at := some (JSNum.num 2000) },
            clientTenants := some [{ tenantId := some "ten-a" }],
            cache := { stored := some (StoredVal.valid { expires_at := some (JSNum.num 900) }) } },
          []⟩ := rfl

/-- C6 (amended): when the in-memory token is absent or not fresh and the
cache holds a record whose `expires_at` is in the past (coerces to at most
`now`) and which has no refresh token, `getTenants` fails with the
authentication-required condition and performs zero tenant-list calls (its
only effect is the cache read). -/
theorem C6_stale_cache_auth_required (env : XeroEnv) (refreshOrc : RefreshOutcome)
    (tenantsOrc : TenantsOutcome) (s : SessionState) (now : Nat) (st : TokenSet)
    (hmem : isExpiredOrNearExpiry s.clientTokenSet now = true)
    (hstored : s.cache.stored = some (StoredVal.valid st))
    (hpast : coerceExpiresAt (some st) ≤ (now : Int))
    (hnorefresh : st.refresh_token = none) :
    getTenants env refreshOrc tenantsOrc s now
      = ⟨Except.error XeroError.authRequired,
          { s with clientTokenSet := some st }, [Effect.cacheRead]⟩ := by
  have hstale : isExpiredOrNearExpiry (some st) now = true := by
    rw [isExpiredOrNearExpiry_eq_true_iff]; omega
  have hea : ensureAuthenticated env refreshOrc s now
      = ⟨false, { s with clientTokenSet := some st }, [Effect.cacheRead]⟩ := by
    simp [ensureAuthenticated, hmem, loadTokenSet, hstored, setClientTokenSet, hstale,
      hnorefresh]
  simp [getTenants, hea]

/-- C6 (witness): a concrete run of the amended claim: empty in-memory state,
cached record with `expires_at = 900` and no refresh token, `now = 1000`. -/
theorem C6_stale_cache_auth_required_witness :
    getTenants {} RefreshOutcome.throws TenantsOutcome.throws
        { cache := { stored := some (StoredVal.valid { expires_at := some (JSNum.num 900) }) } }
        1000
      = ⟨Except.error XeroError.authRequired,
          { clientTokenSet := some { expires_at := some (JSNum.num 900) },
            clientTenants := none,
            cache := { stored := some (StoredVal.valid { expires_at := some (JSNum.num 900) }) } },
          [Effect.cacheRead]⟩ :=
  C6_stale_cache_auth_required {} RefreshOutcome.throws TenantsOutcome.throws
    { cache := { stored := some (StoredVal.valid { expires_at := some (JSNum.num 900) }) } }
    1000 { expires_at := some (JSNum.num 900) }
    (by decide) rfl (by decide) rfl

/-! ## Facade claims -/

/-- C9: `getTenants` always returns a list, never a null value: when
authentication succeeds off a fresh in-memory token and the wrapped client's
tenant field is unset, `updateTenants` is attempted, and even when it leaves
the field still unset the empty list is returned as the fallback
(`x.tenants || []`). -/
theorem C9_tenants_empty_fallback (env : XeroEnv) (refreshOrc : RefreshOutcome)
    (s : SessionState) (now : Nat) (ts : TokenSet)
    (hmem : s.clientTokenSet = some ts)
    (hfresh : isExpiredOrNearExpiry (some ts) now = false)
    (hunset : s.clientTenants = none) :
    getTenants env refreshOrc (TenantsOutcome.sets none) s now
      = ⟨Except.ok [], s, [Effect.tenantsCall]⟩ := by
  rcases s with ⟨ctok, cten, cc⟩
  simp only [SessionState.clientTokenSet] at hmem
  simp only [SessionState.clientTenants] at hunset
  subst hmem hunset
  have hea := ensureAuthenticated_of_fresh env refreshOrc ⟨some ts, none, cc⟩ now ts rfl hfresh
  simp [getTenants, hea]

/-- C9 (witness): a concrete run with a fresh in-memory token, an unset
tenant field and an `updateTenants` call that leaves it unset. -/
theorem C9_tenants_empty_fallback_witness :
    getTenants {} RefreshOutcome.throws (TenantsOutcome.sets none)
        { clientTokenSet := some { expires_at := some (JSNum.num 10000) } } 100
      = ⟨Except.ok [],
          { clientTokenSet := some { expires_at := some (JSNum.num 10000) } },
          [Effect.tenantsCall]⟩ :=
  C9_tenants_empty_fallback {} RefreshOutcome.throws
    { clientTokenSet := some { expires_at := some (JSNum.num 10000) } } 100
    { expires_at := some (JSNum.num 10000) } rfl (by decide) rfl

/-- C4 (counterexample): a tenant list with two entries where the index-1
entry's `tenantId` is the empty string. The claim says the helper returns
the tenantId of the entry at index 1, but `if (!tenantId) throw` treats the
empty string as falsy, so `getActiveTenantId` fails with
`No connected Xero tenant found` although the list has two entries (the
session holds a fresh token, so no authentication effect occurs). -/
theorem C4_counterexample :
    getActiveTenantId {} RefreshOutcome.throws TenantsOutcome.throws
        { clientTokenSet := some { expires_at := some (JSNum.num 10000) },
          clientTenants := some [{ tenantId := some "ten-0" }, { tenantId := some "" }] }
        100
      = ⟨Except.error XeroError.noTenant,
          { clientTokenSet := some { expires_at := some (JSNum.num 10000) },
            clientTenants := some [{ tenantId := some "ten-0" }, { tenantId := some "" }] },
          []⟩ := rfl

/-- C4 (amended): the active-tenant selection takes the entry at index 1 (the
second entry, not the first): it returns that entry's `tenantId` whenever it
is present and non-empty; it fails with the `No connected Xero tenant found`
error for every list with fewer than two entries (in particular a singleton
list), and also when the index-1 entry's `tenantId` is absent or empty. -/
theorem C4_active_tenant_selection :
    (∀ (l : List Tenant) (t : Tenant) (tid : String),
        l[1]? = some t → t.tenantId = some tid → tid ≠ "" →
        selectActiveTenantId l = Except.ok tid)
    ∧ (∀ l : List Tenant, l.length < 2 →
        selectActiveTenantId l = Except.error XeroError.noTenant)
    ∧ (∀ (l : List Tenant) (t : Tenant), l[1]? = some t →
        (t.tenantId = none ∨ t.tenantId = some "") →
        selectActiveTenantId l = Except.error XeroError.noTenant) := by
  refine ⟨?_, ?_, ?_⟩
  · intro l t tid h1 h2 h3
    simp [selectActiveTenantId, h1, h2, h3]
  · intro l h
    have h1 : l[1]? = none := by
      rw [List.getElem?_eq_none_iff]; omega
    simp [selectActiveTenantId, h1]
  · intro l t h1 h2
    rcases h2 with h2 | h2 <;> simp [selectActiveTenantId, h1, h2]

/-- C4 (witness): on `[{tenantId := "ten-0"}, {tenantId := "ten-1"}]` the
selection returns `"ten-1"` (the second entry), and on the singleton
`[{tenantId := "ten-0"}]` it fails. -/
theorem C4_active_tenant_selection_witness :
    selectActiveTenantId [{ tenantId := some "ten-0" }, { tenantId := some "ten-1" }]
      = Except.ok "ten-1"
    ∧ selectActiveTenantId [{ tenantId := some "ten-0" }]
      = Except.error XeroError.noTenant :=
  ⟨C4_active_tenant_selection.1 [{ tenantId := some "ten-0" }, { tenantId := some "ten-1" }]
      { tenantId := some "ten-1" } "ten-1" rfl rfl (by decide),
   C4_active_tenant_selection.2.1 [{ tenantId := some "ten-0" }] (by decide)⟩

/-- C5 (counterexample): `" "` is a non-empty code, yet with no redirect URI
configured `getTokenFromCode` fails with the `Authorization code is
required` error, not the distinct `XERO_REDIRECT_URIS not configured` error
the claim requires for every non-empty code: the code is trimmed before the
emptiness test, so a whitespace-only code never reaches the redirect-URI
check. -/
theorem C5_counterexample :
    getTokenFromCode { redirectUris := [] } (some " ") ExchangeOutcome.throws
        TenantsOutcome.throws {}
      = ⟨Except.error XeroError.codeRequired, {}, []⟩ := rfl

/-- C5 (amended): an absent code and an empty code both fail immediately with
the configuration-style `Authorization code is required` error, with no
effects (no network or SDK call) and an unchanged state; and for every code
that is non-empty after trimming, an empty redirect-URI list fails with the
distinct `XERO_REDIRECT_URIS not configured` error, again with no
effects. -/
theorem C5_code_and_redirect_validation :
    (∀ (env : XeroEnv) (ex : ExchangeOutcome) (tn : TenantsOutcome) (s : SessionState),
        getTokenFromCode env none ex tn s
          = ⟨Except.error XeroError.codeRequired, s, []⟩)
    ∧ (∀ (env : XeroEnv) (ex : ExchangeOutcome) (tn : TenantsOutcome) (s : SessionState),
        getTokenFromCode env (some "") ex tn s
          = ⟨Except.error XeroError.codeRequired, s, []⟩)
    ∧ (∀ (env : XeroEnv) (code : String) (ex : ExchangeOutcome) (tn : TenantsOutcome)
        (s : SessionState), jsTrim code ≠ "" → env.redirectUris = [] →
        getTokenFromCode env (some code) ex tn s
          = ⟨Except.error XeroError.redirectNotConfigured, s, []⟩) := by
  refine ⟨fun env ex tn s => rfl, fun env ex tn s => rfl, ?_⟩
  intro env code ex tn s h1 h2
  simp only [getTokenFromCode, Option.getD_some, if_neg h1, h2, List.head?_nil]

/-- C5 (witness): concrete runs of all three validation branches. -/
theorem C5_code_and_redirect_validation_witness :
    getTokenFromCode { redirectUris := ["https://cb"] } none ExchangeOutcome.throws
        TenantsOutcome.throws {}
      = ⟨Except.error XeroError.codeRequired, {}, []⟩
    ∧ getTokenFromCode { redirectUris := ["https://cb"] } (some "") ExchangeOutcome.throws
        TenantsOutcome.throws {}
      = ⟨Except.error XeroError.codeRequired, {}, []⟩
    ∧ getTokenFromCode {} (some "abc") ExchangeOutcome.throws TenantsOutcome.throws {}
      = ⟨Except.error XeroError.redirectNotConfigured, {}, []⟩ :=
  ⟨C5_code_and_redirect_validation.1 { redirectUris := ["https://cb"] }
      ExchangeOutcome.throws TenantsOutcome.throws {},
   C5_code_and_redirect_validation.2.1 { redirectUris := ["https://cb"] }
      ExchangeOutcome.throws TenantsOutcome.throws {},
   C5_code_and_redirect_validation.2.2 {} "abc" ExchangeOutcome.throws
      TenantsOutcome.throws {} (by decide) rfl⟩

/-- C7: the token cache adapter never propagates store errors: a save against
a failing store returns normally leaving the store unchanged, a load returns
`none` both when the key is missing and when the stored payload is
malformed, and a failing save never aborts an already-successful token
exchange — `getTokenFromCode` with a valid code, a configured redirect URI
and succeeding SDK calls still returns the exchanged token set when the
store write fails. -/
theorem C7_cache_fail_open :
    (∀ (ts : Option TokenSet) (c : CacheState), c.writeFails = true →
        saveTokenSet ts c = c)
    ∧ (∀ c : CacheState, c.stored = none → loadTokenSet c = none)
    ∧ (∀ c : CacheState, c.stored = some StoredVal.malformed → loadTokenSet c = none)
    ∧ (∀ (env : XeroEnv) (code uri : String) (ts : TokenSet)
        (newTenants : Option (List Tenant)) (s : SessionState),
        jsTrim code ≠ "" → env.redirectUris.head? = some uri → uri ≠ "" →
        s.cache.writeFails = true →
        (getTokenFromCode env (some code) (ExchangeOutcome.returns ts)
          (TenantsOutcome.sets newTenants) s).1 = Except.ok ts) := by
  refine ⟨?_, ?_, ?_, ?_⟩
  · intro ts c h; simp [saveTokenSet, h]
  · intro c h; simp [loadTokenSet, h]
  · intro c h; simp [loadTokenSet, h]
  · intro env code uri ts newTenants s h1 h2 h3 _h4
    simp [getTokenFromCode, h1, h2, h3]

/-- C7 (witness): concrete runs of all four conjuncts: a swallowed save
against a failing store, loads of a missing key and of a malformed payload,
and a successful exchange whose trailing save fails. -/
theorem C7_cache_fail_open_witness :
    saveTokenSet none { stored := none, writeFails := true }
      = { stored := none, writeFails := true }
    ∧ loadTokenSet { stored := none, writeFails := false } = none
    ∧ loadTokenSet { stored := some StoredVal.malformed, writeFails := false } = none
    ∧ (getTokenFromCode { redirectUris := ["https://cb"] } (some "authcode")
        (ExchangeOutcome.returns { access_token := some "at" })
        (TenantsOutcome.sets none)
        { cache := { writeFails := true } }).1
      = Except.ok { access_token := some "at" } :=
  ⟨C7_cache_fail_open.1 none { stored := none, writeFails := true } rfl,
   C7_cache_fail_open.2.1 { stored := none, writeFails := false } rfl,
   C7_cache_fail_open.2.2.1 { stored := some StoredVal.malformed, writeFails := false } rfl,
   C7_cache_fail_open.2.2.2 { redirectUris := ["https://cb"] } "authcode" "https://cb"
     { access_token := some "at" } none { cache := { writeFails := true } }
     (by decide) rfl (by decide) rfl⟩

end XeroHelper
